import Mathlib

/-!
Verification of the `asubselect` Azure subscription selector TUI
(`src/main.go`) against its natural-language specification.

The Go program is shallowly embedded: pure helpers become Lean
functions, the bubbletea `Update` dispatch becomes a function from an
explicit `App` state and a message to the next state plus a command
value, and the two external `az` invocations are modelled by explicit
parameters (tool availability, command outcome) together with a counter
of how many times the external command would be executed.
-/

namespace Asubselect

/-! ## String matching (Go `strings.Contains`)

Go strings are byte sequences compared byte for byte; the messages the
classifier inspects are ASCII, so a list of characters compared
exactly is a faithful model.  `strings.Contains(s, sub)` holds iff some
suffix of `s` starts with `sub` (and always holds for the empty `sub`).
-/

/-- Does the first list start with the second one? -/
def startsWithList : List Char → List Char → Bool
  | _, [] => true
  | [], _ :: _ => false
  | c :: cs, d :: ds => c == d && startsWithList cs ds

/-- Does the first list contain the second as a contiguous sublist? -/
def containsList : List Char → List Char → Bool
  | s, sub =>
    match s with
    | [] => startsWithList [] sub
    | _ :: cs => startsWithList s sub || containsList cs sub

/-- Model of Go `strings.Contains(s, sub)` (case-sensitive, exact bytes). -/
def goContains (s sub : String) : Bool :=
  containsList s.toList sub.toList

/-! ## Error classifier (`classifyError`, src/main.go:574-614) -/

/-- Model of the Go `ErrorType` enumeration. -/
inductive ErrorType where
  | network
  | auth
  | permission
  | config
  | unknown
deriving DecidableEq, Repr

/-- Model of the Go `AppError` struct, minus the wrapped `Err` field
(the classifier keeps the input error untouched there). -/
structure AppError where
  etype : ErrorType
  retryable : Bool
  suggestion : String
deriving DecidableEq, Repr

/-- Model of `(*App).classifyError`: the Go `switch` over
`strings.Contains` tests on the error message, in source order.
The receiver is irrelevant (no field of `App` is read). -/
def classifyError (errStr : String) : AppError :=
  if goContains errStr "network" || goContains errStr "connection" ||
      goContains errStr "timeout" then
    ⟨ErrorType.network, true, "Check your network connection and try again."⟩
  else if goContains errStr "authentication" || goContains errStr "login" then
    ⟨ErrorType.auth, false, "Please run \x27az login\x27 to authenticate with Azure."⟩
  else if goContains errStr "permission" || goContains errStr "unauthorized" then
    ⟨ErrorType.permission, false, "Check that your account has the required permissions."⟩
  else if goContains errStr "not found" || goContains errStr "az" then
    ⟨ErrorType.config, false, "Ensure Azure CLI is installed and in your PATH."⟩
  else
    ⟨ErrorType.unknown, true, "An unexpected error occurred. Please try again."⟩

/-- The classifier's rule table, written the way the specification
describes it: an ordered list of (trigger substrings, kind, retryable)
rows, first matching row wins, with a default row at the end.  Used to
state the amended form of the classification claim. -/
def classifyRules : List (List String × ErrorType × Bool) :=
  [(["network", "connection", "timeout"], ErrorType.network, true),
   (["authentication", "login"], ErrorType.auth, false),
   (["permission", "unauthorized"], ErrorType.permission, false),
   (["not found", "az"], ErrorType.config, false)]

/-- First-match semantics over `classifyRules` (spec-style declarative
formulation of the classifier, with the code's case-sensitive match). -/
def classifyFirstMatch (errStr : String) : ErrorType × Bool :=
  match classifyRules.find? (fun r => r.1.any (goContains errStr)) with
  | some r => r.2
  | none => (ErrorType.unknown, true)

/-! ## Retry controller (`shouldRetry`, `retryOperation`, src/main.go:86-90,616-636) -/

/-- Go constant `MaxRetries`. -/
def MaxRetries : Nat := 3

/-- Go constant `BaseDelay = 500 * time.Millisecond`, in nanoseconds
(`time.Duration` is an `int64` count of nanoseconds). -/
def BaseDelay : Int := 500000000

/-- Go constant `MaxDelay = 5 * time.Second`, in nanoseconds. -/
def MaxDelay : Int := 5000000000

/-- Truncation of an integer to Go `int64` (two's complement wrap). -/
def int64wrap (n : Int) : Int :=
  (n + 2 ^ 63) % 2 ^ 64 - 2 ^ 63

/-- Model of `(*App).shouldRetry` with the two `App` fields it reads
(`retryCount`, `maxRetries`) passed explicitly. -/
def shouldRetry (errStr : String) (retryCount maxRetries : Nat) : Bool :=
  if maxRetries ≤ retryCount then false
  else (classifyError errStr).retryable

/-- The delay computed by `(*App).retryOperation`:
`delay := BaseDelay * time.Duration(1<<app.retryCount); if delay > MaxDelay { delay = MaxDelay }`.
Both the shift `1 << n` and the product truncate to `int64` in Go. -/
def retryDelay (retryCount : Nat) : Int :=
  let delay := int64wrap (BaseDelay * int64wrap (2 ^ retryCount))
  if delay > MaxDelay then MaxDelay else delay

/-- The specification's backoff formula
`nextDelay(n) = min(baseDelay * 2^n, capDelay)` over unbounded integers. -/
def nextDelaySpec (retryCount : Nat) : Int :=
  min (BaseDelay * 2 ^ retryCount) MaxDelay

/-! ## Subscription parser (`parseSubscriptions`, src/main.go:692-700)

`parseSubscriptions` is `json.Unmarshal(data, &[]Subscription)`.  The
JSON text is modelled at the level of parsed JSON values; the embedding
reproduces `encoding/json`'s decoding semantics for the concrete target
type `[]Subscription`:
- a top-level JSON `null` leaves the slice `nil` and succeeds;
- a top-level array decodes element-wise;
- any other top-level value is a type error;
- an object decodes into `Subscription` by matching each key against
  the struct's JSON tags (exact match preferred, ASCII case-insensitive
  fallback), ignoring unmatched keys, leaving absent fields at their
  zero values, and failing on a value of the wrong shape;
- `null` for a field (or a whole element) leaves the target unchanged.
-/

/-- Parsed JSON values. -/
inductive Json where
  | null : Json
  | jbool : Bool → Json
  | jnum : Int → Json
  | jstr : String → Json
  | jarr : List Json → Json
  | jobj : List (String × Json) → Json

/-- Model of the Go `Subscription` struct; the nested anonymous
`User struct { Name string }` is flattened to its single field. -/
structure Subscription where
  id : String
  name : String
  isDefault : Bool
  userName : String
deriving DecidableEq, Repr

/-- The zero value of the Go `Subscription` struct. -/
def zeroSubscription : Subscription := ⟨"", "", false, ""⟩

/-- ASCII case-insensitive string equality (the fallback key matching
`encoding/json` performs when no tag matches exactly). -/
def eqFold (a b : String) : Bool :=
  a.toList.map Char.toLower == b.toList.map Char.toLower

/-- The four JSON-tagged fields of `Subscription`. -/
inductive SubField where
  | fid
  | fname
  | fisDefault
  | fuser
deriving DecidableEq, Repr

/-- JSON tag of each `Subscription` field. -/
def fieldTag : SubField → String
  | SubField.fid => "id"
  | SubField.fname => "name"
  | SubField.fisDefault => "isDefault"
  | SubField.fuser => "user"

/-- The struct's fields in declaration order. -/
def subFields : List SubField :=
  [SubField.fid, SubField.fname, SubField.fisDefault, SubField.fuser]

/-- Which struct field (if any) a JSON object key selects: exact tag
match first, then ASCII case-insensitive match, else the key is an
unknown field and is ignored. -/
def matchField (k : String) : Option SubField :=
  match subFields.find? (fun f => fieldTag f == k) with
  | some f => some f
  | none => subFields.find? (fun f => eqFold (fieldTag f) k)

/-- Decode a JSON value into a `string` field (current value kept on
`null`, type error otherwise). -/
def decodeStrField (cur : String) : Json → Except Unit String
  | Json.jstr s => Except.ok s
  | Json.null => Except.ok cur
  | _ => Except.error ()

/-- Decode a JSON value into a `bool` field. -/
def decodeBoolField (cur : Bool) : Json → Except Unit Bool
  | Json.jbool b => Except.ok b
  | Json.null => Except.ok cur
  | _ => Except.error ()

/-- Apply one key/value pair of the nested `user` object: only the tag
`"name"` selects the single field, other keys are ignored. -/
def applyUserField (cur : String) (k : String) (v : Json) : Except Unit String :=
  if ("name" == k || eqFold "name" k) then decodeStrField cur v
  else Except.ok cur

/-- Decode a JSON value into the nested `User` struct (its one field). -/
def decodeUser (cur : String) : Json → Except Unit String
  | Json.jobj fs => fs.foldlM (fun acc kv => applyUserField acc kv.1 kv.2) cur
  | Json.null => Except.ok cur
  | _ => Except.error ()

/-- Apply one key/value pair of a subscription object to the record
being built. -/
def applyField (s : Subscription) (k : String) (v : Json) : Except Unit Subscription :=
  match matchField k with
  | some SubField.fid =>
    (decodeStrField s.id v).map (fun x => { s with id := x })
  | some SubField.fname =>
    (decodeStrField s.name v).map (fun x => { s with name := x })
  | some SubField.fisDefault =>
    (decodeBoolField s.isDefault v).map (fun x => { s with isDefault := x })
  | some SubField.fuser =>
    (decodeUser s.userName v).map (fun x => { s with userName := x })
  | none => Except.ok s

/-- Decode one JSON array element into a `Subscription`. -/
def decodeSubscription : Json → Except Unit Subscription
  | Json.jobj fs => fs.foldlM (fun acc kv => applyField acc kv.1 kv.2) zeroSubscription
  | Json.null => Except.ok zeroSubscription
  | _ => Except.error ()

/-- Model of `parseSubscriptions`: `json.Unmarshal` of the input into a
`[]Subscription` (an error stands for the wrapped
`failed to unmarshal JSON` failure). -/
def parseSubscriptions : Json → Except Unit (List Subscription)
  | Json.null => Except.ok []
  | Json.jarr xs => xs.mapM decodeSubscription
  | _ => Except.error ()

/-- A well-formed subscription record as JSON: the four required fields
with the given values, followed by arbitrary extra fields. -/
def recordJson (s : Subscription) (extras : List (String × Json)) : Json :=
  Json.jobj ([("id", Json.jstr s.id), ("name", Json.jstr s.name),
    ("isDefault", Json.jbool s.isDefault),
    ("user", Json.jobj [("name", Json.jstr s.userName)])] ++ extras)

/-! ## Application state machine (src/main.go:100-453)

The bubbletea model is embedded as an explicit `App` record plus a
message type; `tea.Cmd` values are embedded as first-order descriptions
of the side effect the Go closure would perform.  The bubbles
`list.Model` is reduced to the two observables the program uses:
its item slice and its cursor index.  The `*ResultPage` pointer is
reduced to its `changed` payload (`none` models the nil pointer). -/

/-- Model of the Go `AppState` enumeration. -/
inductive AppState where
  | loading
  | retrying
  | selectingSubscription
  | showingResult
  | error
deriving DecidableEq, Repr

/-- Model of the `App` struct fields the claims concern.  `err` holds
the stored error's message text (classification only ever reads the
text); `listItems`/`listIndex` model `app.list`; `resultChanged`
models `app.resultPage`. -/
structure App where
  state : AppState
  subscriptions : List Subscription
  selectedID : String
  err : Option String
  retryCount : Nat
  maxRetries : Nat
  lastOperation : String
  listItems : List Subscription
  listIndex : Nat
  resultChanged : Option Bool
deriving DecidableEq, Repr

/-- Model of `SubscriptionsLoadedMsg` (the unused `AttemptCount` field
is dropped; the error is its message text). -/
structure SubscriptionsLoadedMsg where
  subscriptions : List Subscription
  error : Option String
deriving DecidableEq, Repr

/-- Model of `SubscriptionChangedMsg`. -/
structure SubscriptionChangedMsg where
  subscription : Subscription
  changed : Bool
  error : Option String
deriving DecidableEq, Repr

/-- The key presses `handleKeyMsg` distinguishes (`msg.String()`). -/
inductive Key where
  | q
  | ctrlC
  | enter
  | r
  | esc
  | other
deriving DecidableEq, Repr

/-- First-order description of the `tea.Cmd` values the program
produces.  `emitRetryMsg`/`emitBackMsg` are the closures that just
return a `RetryMsg`/`BackMsg`; `tick d` is the `tea.Tick` command
scheduling a `RetryMsg` after `d` nanoseconds; `setItems` and
`startResultTimer` are the bookkeeping commands of the list component
and of `resultPage.Init()`. -/
inductive Cmd where
  | none
  | quit
  | loadSubscriptions
  | changeSubscription : Subscription → Cmd
  | tick : Int → Cmd
  | emitRetryMsg
  | emitBackMsg
  | setItems
  | startResultTimer
deriving DecidableEq, Repr

/-- The messages `Update` dispatches on.  `windowSize`, `spinnerTick`
and `other` only touch cosmetic state (global dimensions, spinner
frame, child-component bookkeeping) and none of the `App` fields
modelled here. -/
inductive Msg where
  | key : Key → Msg
  | windowSize : Msg
  | spinnerTick : Msg
  | timeout : Msg
  | subsLoaded : SubscriptionsLoadedMsg → Msg
  | subChanged : SubscriptionChangedMsg → Msg
  | retryMsg : Msg
  | backMsg : Msg
  | other : Msg
deriving DecidableEq, Repr

/-- Model of `findDefaultSubscription` (`slices.IndexFunc`, -1 when no
element is marked default). -/
def findDefaultSubscription (subscriptions : List Subscription) : Int :=
  match subscriptions.findIdx? (fun s => s.isDefault) with
  | some i => (i : Int)
  | none => -1

/-- Model of `(*App).shouldRetry` applied to the receiver's fields. -/
def appShouldRetry (app : App) (errStr : String) : Bool :=
  shouldRetry errStr app.retryCount app.maxRetries

/-- Model of `(*App).handleKeyMsg`. -/
def handleKeyMsg (app : App) (key : Key) : App × Cmd :=
  if key = Key.q ∨ key = Key.ctrlC then (app, Cmd.quit)
  else
    match app.state with
    | AppState.selectingSubscription =>
      if key = Key.enter then
        match app.listItems.get? app.listIndex with
        | some sub => (app, Cmd.changeSubscription sub)
        | Option.none => (app, Cmd.none)
      else (app, Cmd.none)
    | AppState.error =>
      if key = Key.r then (app, Cmd.emitRetryMsg)
      else if key = Key.esc then (app, Cmd.emitBackMsg)
      else (app, Cmd.none)
    | AppState.showingResult =>
      if key = Key.esc ∨ key = Key.enter then (app, Cmd.emitBackMsg)
      else (app, Cmd.none)
    | _ => (app, Cmd.none)

/-- Model of `(*App).handleSubscriptionsLoaded`.  Note that
`retryOperation` runs after `app.retryCount++`, so the scheduled tick
uses the incremented count. -/
def handleSubscriptionsLoaded (app : App) (msg : SubscriptionsLoadedMsg) :
    App × Cmd :=
  match msg.error with
  | some e =>
    if appShouldRetry app e then
      ({ app with
          retryCount := app.retryCount + 1,
          lastOperation := "load",
          state := AppState.retrying },
        Cmd.tick (retryDelay (app.retryCount + 1)))
    else
      ({ app with err := some e, state := AppState.error }, Cmd.none)
  | Option.none =>
    let defaultIndex := findDefaultSubscription msg.subscriptions
    let app1 := { app with
      state := AppState.selectingSubscription,
      subscriptions := msg.subscriptions,
      retryCount := 0 }
    let app2 :=
      if h : 0 ≤ defaultIndex ∧ defaultIndex.toNat < msg.subscriptions.length then
        { app1 with
          selectedID := (msg.subscriptions.get ⟨defaultIndex.toNat, h.2⟩).id,
          listIndex := defaultIndex.toNat }
      else app1
    ({ app2 with listItems := msg.subscriptions }, Cmd.setItems)

/-- Model of `(*App).handleSubscriptionChanged`. -/
def handleSubscriptionChanged (app : App) (msg : SubscriptionChangedMsg) :
    App × Cmd :=
  match msg.error with
  | some e =>
    if appShouldRetry app e then
      ({ app with
          retryCount := app.retryCount + 1,
          lastOperation := "change",
          state := AppState.retrying },
        Cmd.tick (retryDelay (app.retryCount + 1)))
    else
      ({ app with err := some e, state := AppState.error }, Cmd.none)
  | Option.none =>
    ({ app with
        selectedID := msg.subscription.id,
        resultChanged := some msg.changed,
        state := AppState.showingResult,
        retryCount := 0 },
      Cmd.startResultTimer)

/-- The fallback tail of `(*App).handleRetry` ("if we can't retry, go
back to subscription selection"). -/
def handleRetryFallback (app : App) : App × Cmd :=
  ({ app with
      state := AppState.selectingSubscription,
      err := Option.none,
      retryCount := 0 }, Cmd.none)

/-- Model of `(*App).handleRetry`: a `switch` on `lastOperation`; the
`"change"` case falls through to the fallback when the saved slice is
empty or the list cursor is out of range. -/
def handleRetry (app : App) : App × Cmd :=
  if app.lastOperation = "load" then
    ({ app with state := AppState.loading }, Cmd.loadSubscriptions)
  else if app.lastOperation = "change" then
    if h : 0 < app.subscriptions.length ∧
        app.listIndex < app.subscriptions.length then
      (app, Cmd.changeSubscription (app.subscriptions.get ⟨app.listIndex, h.2⟩))
    else handleRetryFallback app
  else handleRetryFallback app

/-- Model of `(*App).handleBack` (also nils out `resultPage`). -/
def handleBack (app : App) : App × Cmd :=
  ({ app with
      state := AppState.selectingSubscription,
      err := Option.none,
      retryCount := 0,
      resultChanged := Option.none }, Cmd.none)

/-- Model of `(*App).Update`: the top-level message dispatch. -/
def update (app : App) (msg : Msg) : App × Cmd :=
  match msg with
  | Msg.key k => handleKeyMsg app k
  | Msg.windowSize => (app, Cmd.none)
  | Msg.spinnerTick => (app, Cmd.none)
  | Msg.timeout => (app, Cmd.quit)
  | Msg.subsLoaded m => handleSubscriptionsLoaded app m
  | Msg.subChanged m => handleSubscriptionChanged app m
  | Msg.retryMsg => handleRetry app
  | Msg.backMsg => handleBack app
  | Msg.other => (app, Cmd.none)

/-! ## External `az` interactions (src/main.go:640-727)

The closures returned by `loadSubscriptions` and `changeSubscription`
perform the external calls.  They are embedded as functions of the
relevant world state, returning the message the closure would produce
paired with the number of external `az` process invocations performed.
-/

/-- Message text of `ErrAzureCLINotFound`. -/
def errAzureCLINotFound : String := "azure CLI not found in PATH"

/-- Executing the closure returned by `(*App).changeSubscription sub`:
`selectedID` is the captured receiver's field at execution time,
`azOnPath` models `exec.LookPath` succeeding, `setSucceeds` the outcome
of `az account set`.  The second component counts executed
`az account set` invocations. -/
def changeSubscription (selectedID : String) (sub : Subscription)
    (azOnPath setSucceeds : Bool) : SubscriptionChangedMsg × Nat :=
  if sub.id = selectedID then
    (⟨zeroSubscription, false, Option.none⟩, 0)
  else if !azOnPath then
    (⟨zeroSubscription, false, some errAzureCLINotFound⟩, 0)
  else if setSucceeds then
    (⟨sub, true, Option.none⟩, 1)
  else
    (⟨zeroSubscription, false,
      some "failed to change subscription: exit status 1"⟩, 1)

/-- The world state the load path reads: the `USE_SAMPLE_DATA`
environment variable, whether `az` is on `PATH`, the embedded
`sampledata.json` payload (kept abstract, as parsed JSON), and the
output of `az account list`. -/
structure Env where
  useSampleData : Bool
  azOnPath : Bool
  sampleData : Json
  azOutput : Except String Json

/-- Model of `fetchSubscriptionData` paired with the number of
`az account list` invocations. -/
def fetchSubscriptionData (env : Env) : Except String Json × Nat :=
  if env.useSampleData then (Except.ok env.sampleData, 0)
  else
    match env.azOutput with
    | Except.ok d => (Except.ok d, 1)
    | Except.error e =>
      (Except.error ("azure CLI command failed: " ++ e), 1)

/-- Executing the `(*App).loadSubscriptions` closure: the produced
`SubscriptionsLoadedMsg` paired with the number of external `az`
process invocations.  Error texts follow the `fmt.Errorf` wrapping in
the source (the JSON decoder's own diagnostic text is elided). -/
def loadSubscriptions (env : Env) : SubscriptionsLoadedMsg × Nat :=
  if !env.azOnPath then
    (⟨[], some errAzureCLINotFound⟩, 0)
  else
    match fetchSubscriptionData env with
    | (Except.error e, n) =>
      (⟨[], some ("failed to fetch subscription data: " ++ e)⟩, n)
    | (Except.ok d, n) =>
      match parseSubscriptions d with
      | Except.error _ =>
        (⟨[], some "failed to parse subscription data: failed to unmarshal JSON"⟩, n)
      | Except.ok subs => (⟨subs, Option.none⟩, n)

/-! ## Helper lemmas for the parser theorems -/

/-- Folding subscription-object entries whose keys match no struct
field leaves the record untouched and never fails. -/
theorem foldl_applyField_unknown (l : List (String × Json)) (s : Subscription)
    (h : ∀ kv ∈ l, matchField kv.1 = Option.none) :
    List.foldlM (fun acc kv => applyField acc kv.1 kv.2) s l = Except.ok s := by
  induction l generalizing s with
  | nil => rfl
  | cons kv rest ih =>
    have hk : matchField kv.1 = Option.none := h kv (List.mem_cons_self kv rest)
    have hrest : ∀ kv ∈ rest, matchField kv.1 = Option.none :=
      fun x hx => h x (List.mem_cons_of_mem kv hx)
    simp only [List.foldlM, applyField, hk]
    exact ih s hrest

/-- A well-formed record decodes to exactly its field values, with any
unknown extra fields ignored. -/
theorem decodeSubscription_recordJson (s : Subscription)
    (extras : List (String × Json))
    (h : ∀ kv ∈ extras, matchField kv.1 = Option.none) :
    decodeSubscription (recordJson s extras) = Except.ok s := by
  obtain ⟨i, n, d, u⟩ := s
  have h1 : decodeSubscription (recordJson ⟨i, n, d, u⟩ extras) =
      List.foldlM (fun acc kv => applyField acc kv.1 kv.2)
        (⟨i, n, d, u⟩ : Subscription) extras := rfl
  rw [h1]
  exact foldl_applyField_unknown extras ⟨i, n, d, u⟩ h

/-- Element-wise decoding of a list of well-formed records yields the
records in input order. -/
theorem mapM_decode_recordJson
    (rs : List (Subscription × List (String × Json)))
    (h : ∀ p ∈ rs, ∀ kv ∈ p.2, matchField kv.1 = Option.none) :
    List.mapM decodeSubscription (rs.map (fun p => recordJson p.1 p.2)) =
      Except.ok (rs.map Prod.fst) := by
  induction rs with
  | nil => rfl
  | cons p rest ih =>
    have hp := h p (List.mem_cons_self p rest)
    have hrest : ∀ q ∈ rest, ∀ kv ∈ q.2, matchField kv.1 = Option.none :=
      fun q hq => h q (List.mem_cons_of_mem p hq)
    simp only [List.map_cons, List.mapM_cons,
      decodeSubscription_recordJson p.1 p.2 hp, ih hrest]
    rfl

/-! ## Concrete fixtures used by witnesses and counterexamples -/

/-- A sample subscription (mirrors the shapes in the repository's tests). -/
def demoSub : Subscription := ⟨"sub-1", "Demo", true, "user@example.com"⟩

/-- An `App` in the selecting state right after a successful load of
`[demoSub]`, with the default subscription selected. -/
def demoApp : App :=
  { state := AppState.selectingSubscription, subscriptions := [demoSub],
    selectedID := "sub-1", err := Option.none, retryCount := 0,
    maxRetries := MaxRetries, lastOperation := "", listItems := [demoSub],
    listIndex := 0, resultChanged := Option.none }

/-- Like `demoApp` but with a different currently active subscription id. -/
def demoAppOther : App := { demoApp with selectedID := "sub-2" }

/-- An `App` in the error state with the retry budget exhausted
(`retryCount = maxRetries = 3`) after a failed load. -/
def errApp : App :=
  { demoApp with
    state := AppState.error,
    lastOperation := "load",
    retryCount := 3,
    err := some "network timeout" }

/-- Like `errApp` but the failed operation was a subscription change. -/
def errAppChange : App := { errApp with lastOperation := "change" }

/-- Like `errAppChange` but with no saved subscriptions. -/
def errAppChangeEmpty : App := { errAppChange with subscriptions := [] }

/-- Two well-formed subscription records, the first carrying an unknown
extra field. -/
def sampleRecords : List (Subscription × List (String × Json)) :=
  [(⟨"test-id-1", "Test Sub 1", true, "user1@example.com"⟩,
      [("tenantId", Json.jstr "t-1")]),
   (⟨"test-id-2", "Test Sub 2", false, "user2@example.com"⟩, [])]

/-- Environment with `USE_SAMPLE_DATA=true` but no `az` on `PATH`. -/
def sampleEnvNoAz : Env := ⟨true, false, Json.jarr [], Except.error "unused"⟩

/-- Environment with `USE_SAMPLE_DATA=true` and `az` on `PATH`; the
`azOutput` field is irrelevant because the tool is never invoked. -/
def sampleEnvOk : Env := ⟨true, true, Json.jarr [], Except.error "unused"⟩

/-! ## Claim C1: error classification -/

set_option maxRecDepth 8000

/-- C1 counterexample: the code matches substrings case-SENSITIVELY, so
changing only the letter case of a message changes the classification:
"network timeout" classifies as Network but its upper-cased form as
Unknown, and upper-casing "permission denied" flips retryable from
false to true.  This refutes the claim's case-insensitivity clause. -/
theorem classifyError_case_sensitive_cex :
    (classifyError "network timeout").etype = ErrorType.network ∧
    (classifyError "NETWORK TIMEOUT").etype = ErrorType.unknown ∧
    (classifyError "permission denied").retryable = false ∧
    (classifyError "PERMISSION DENIED").retryable = true := by
  refine ⟨by decide, by decide, by decide, by decide⟩

/-- C1 (amended): `classifyError` performs case-SENSITIVE substring
matching on the message in the fixed priority order
network/connection/timeout → Network retryable, authentication/login →
Auth non-retryable, permission/unauthorized → Permission non-retryable,
"not found"/"az" (the external tool name) → Config non-retryable,
default → Unknown retryable — first matching rule wins, as witnessed by
agreement with the declarative first-match rule table
`classifyFirstMatch`; in particular a message matching rules of two
priorities (e.g. one containing "timeout") classifies by the earlier
rule. -/
theorem classifyError_firstMatch :
    (∀ s, ((classifyError s).etype, (classifyError s).retryable) =
      classifyFirstMatch s) ∧
    (∀ s, goContains s "timeout" = true →
      (classifyError s).etype = ErrorType.network ∧
      (classifyError s).retryable = true) := by
  constructor
  · intro s
    simp only [classifyError, classifyFirstMatch, classifyRules, List.find?,
      List.any, Bool.or_false]
    cases hn : goContains s "network" <;>
      cases hc : goContains s "connection" <;>
      cases ht : goContains s "timeout" <;>
      cases ha : goContains s "authentication" <;>
      cases hl : goContains s "login" <;>
      cases hp : goContains s "permission" <;>
      cases hu : goContains s "unauthorized" <;>
      cases hf : goContains s "not found" <;>
      cases hz : goContains s "az" <;>
      rfl
  · intro s h
    simp [classifyError, h]

/-- C1 witness: the first-match agreement at a concrete message, and
the priority consequence at a message containing both "permission" and
"timeout" (classified Network, by the earlier rule). -/
theorem classifyError_firstMatch_witness :
    ((classifyError "something broke").etype,
      (classifyError "something broke").retryable) =
        classifyFirstMatch "something broke" ∧
    ((classifyError "permission timeout").etype = ErrorType.network ∧
      (classifyError "permission timeout").retryable = true) :=
  ⟨classifyError_firstMatch.1 "something broke",
   classifyError_firstMatch.2 "permission timeout" (by decide)⟩

/-! ## Claim C2: retry decision -/

/-- C2: the retry decision equals classify(e).retryable AND
attemptCount < maxAttempts; it is false whenever the attempt count has
reached the maximum regardless of the error, and false for any
non-retryable error regardless of the attempt count. -/
theorem shouldRetry_contract :
    (∀ e n m, shouldRetry e n m =
      ((classifyError e).retryable && decide (n < m))) ∧
    (∀ e n m, m ≤ n → shouldRetry e n m = false) ∧
    (∀ e n m, (classifyError e).retryable = false →
      shouldRetry e n m = false) := by
  refine ⟨?_, ?_, ?_⟩
  · intro e n m
    by_cases h : m ≤ n
    · simp [shouldRetry, h, Nat.not_lt.mpr h]
    · simp [shouldRetry, h, Nat.lt_of_not_le h]
  · intro e n m h
    simp [shouldRetry, h]
  · intro e n m h
    by_cases hc : m ≤ n
    · simp [shouldRetry, hc]
    · simp [shouldRetry, hc, h]

/-- C2 witness: the contract evaluated at concrete inputs — a
retryable network error below/at the cap, and an auth error at attempt
count 0. -/
theorem shouldRetry_contract_witness :
    shouldRetry "network timeout" 1 3 = true ∧
    shouldRetry "network timeout" 3 3 = false ∧
    shouldRetry "authentication failed" 0 3 = false := by
  refine ⟨?_, shouldRetry_contract.2.1 "network timeout" 3 3 (by decide),
    shouldRetry_contract.2.2 "authentication failed" 0 3 (by decide)⟩
  rw [shouldRetry_contract.1 "network timeout" 1 3]
  decide

/-! ## Claim C3: backoff delay -/

/-- C3 counterexample: the Go computation truncates `1 << n` and the
product to `int64`, so at attempt count 64 the computed delay is 0
nanoseconds while the claimed formula `min(baseDelay * 2^n, capDelay)`
gives the 5-second cap. -/
theorem retryDelay_overflow_cex :
    retryDelay 64 = 0 ∧ nextDelaySpec 64 = MaxDelay ∧ (0 : Int) ≠ MaxDelay := by
  refine ⟨by decide, by decide, by decide⟩

/-- C3 (amended): for every attempt count n ≤ 34 — in particular every
count the program can reach, since attempts are capped at
`MaxRetries = 3` — the scheduled delay equals
`min(baseDelay * 2^n, capDelay)` with base 500 ms and cap 5 s, is
non-decreasing in n, and never exceeds the cap; beyond that range the
`int64` shift/product overflows and the equality fails. -/
theorem retryDelay_bounded_spec :
    (∀ n, n ≤ 34 → retryDelay n = nextDelaySpec n) ∧
    (∀ m, m ≤ 34 → ∀ n, n ≤ m → retryDelay n ≤ retryDelay m) ∧
    (∀ n, n ≤ 34 → retryDelay n ≤ MaxDelay) ∧
    MaxRetries + 1 ≤ 34 := by
  refine ⟨by decide, by decide, by decide, by decide⟩

/-- C3 witness: the bounded backoff facts evaluated at the largest
reachable attempt counts. -/
theorem retryDelay_bounded_spec_witness :
    retryDelay 3 = nextDelaySpec 3 ∧
    retryDelay 2 ≤ retryDelay 3 ∧
    retryDelay 4 ≤ MaxDelay :=
  ⟨retryDelay_bounded_spec.1 3 (by decide),
   retryDelay_bounded_spec.2.1 3 (by decide) 2 (by decide),
   retryDelay_bounded_spec.2.2.1 4 (by decide)⟩

/-! ## Claim C4: subscription parsing -/

/-- C4 counterexample: `parse` does NOT fail where the claim requires
it to: a top-level JSON `null` (a non-array value) succeeds with the
empty list, and an array element missing every required field succeeds
with the zero-valued record instead of a MalformedData failure. -/
theorem parseSubscriptions_lenient_cex :
    parseSubscriptions Json.null = Except.ok [] ∧
    parseSubscriptions (Json.jarr [Json.jobj []]) =
      Except.ok [zeroSubscription] :=
  ⟨rfl, rfl⟩

/-- C4 (amended): for every well-formed JSON array of N subscription
records (each possibly carrying unknown extra fields, which are
ignored) `parse` returns exactly those N records preserving input
order and the values of id, name, isDefault and user.name; the empty
array yields the empty sequence; a top-level `null` also succeeds with
the empty (nil) slice; every other non-array top-level value fails;
and an element missing required fields succeeds with Go zero values
rather than failing. -/
theorem parseSubscriptions_spec :
    (∀ rs : List (Subscription × List (String × Json)),
      (∀ p ∈ rs, ∀ kv ∈ p.2, matchField kv.1 = Option.none) →
      parseSubscriptions (Json.jarr (rs.map (fun p => recordJson p.1 p.2))) =
        Except.ok (rs.map Prod.fst)) ∧
    parseSubscriptions (Json.jarr []) = Except.ok [] ∧
    parseSubscriptions Json.null = Except.ok [] ∧
    (∀ b, parseSubscriptions (Json.jbool b) = Except.error ()) ∧
    (∀ q, parseSubscriptions (Json.jnum q) = Except.error ()) ∧
    (∀ s, parseSubscriptions (Json.jstr s) = Except.error ()) ∧
    (∀ fs, parseSubscriptions (Json.jobj fs) = Except.error ()) ∧
    parseSubscriptions (Json.jarr [Json.jobj []]) =
      Except.ok [zeroSubscription] := by
  refine ⟨?_, rfl, rfl, fun b => rfl, fun q => rfl, fun s => rfl,
    fun fs => rfl, rfl⟩
  intro rs h
  exact mapM_decode_recordJson rs h

/-- C4 witness: parsing two concrete well-formed records, the first
with an unknown `tenantId` field, yields exactly those two records in
order. -/
theorem parseSubscriptions_spec_witness :
    parseSubscriptions
        (Json.jarr (sampleRecords.map (fun p => recordJson p.1 p.2))) =
      Except.ok (sampleRecords.map Prod.fst) :=
  parseSubscriptions_spec.1 sampleRecords (by decide)

/-! ## Claim C5: confirming a selection -/

/-- C5: in state SelectingSubscription, confirming (enter) the listed
subscription produces the change command; executing it for the
currently active id yields changed=false with zero external set calls
and the resulting message drives the app to ShowingResult with
changed=false, while executing it for a different id performs exactly
one set call (whatever its outcome), and on success the app moves to
ShowingResult with changed=true. -/
theorem changeSubscription_selection_spec (app : App) (sub : Subscription)
    (hstate : app.state = AppState.selectingSubscription)
    (hsel : app.listItems.get? app.listIndex = some sub) :
    handleKeyMsg app Key.enter = (app, Cmd.changeSubscription sub) ∧
    (sub.id = app.selectedID →
      (∀ azOnPath setSucceeds,
        changeSubscription app.selectedID sub azOnPath setSucceeds =
          (⟨zeroSubscription, false, Option.none⟩, 0)) ∧
      (update app (Msg.subChanged ⟨zeroSubscription, false, Option.none⟩)).1.state
          = AppState.showingResult ∧
      (update app (Msg.subChanged ⟨zeroSubscription, false, Option.none⟩)).1.resultChanged
          = some false) ∧
    (sub.id ≠ app.selectedID →
      (∀ setSucceeds, (changeSubscription app.selectedID sub true setSucceeds).2 = 1) ∧
      changeSubscription app.selectedID sub true true =
        (⟨sub, true, Option.none⟩, 1) ∧
      (update app (Msg.subChanged ⟨sub, true, Option.none⟩)).1.state
          = AppState.showingResult ∧
      (update app (Msg.subChanged ⟨sub, true, Option.none⟩)).1.resultChanged
          = some true) := by
  refine ⟨?_, ?_, ?_⟩
  · simp only [List.get?_eq_getElem?] at hsel
    simp [handleKeyMsg, hstate, hsel]
  · intro h
    refine ⟨fun azOnPath setSucceeds => ?_, ?_, ?_⟩
    · simp [changeSubscription, h]
    · simp [update, handleSubscriptionChanged]
    · simp [update, handleSubscriptionChanged]
  · intro h
    refine ⟨fun setSucceeds => ?_, ?_, ?_, ?_⟩
    · cases setSucceeds <;> simp [changeSubscription, h]
    · simp [changeSubscription, h]
    · simp [update, handleSubscriptionChanged]
    · simp [update, handleSubscriptionChanged]

/-- C5 witness: the unchanged branch at `demoApp` (active id selected)
reaches ShowingResult, and the different-id branch at `demoAppOther`
performs its single successful set call. -/
theorem changeSubscription_selection_spec_witness :
    (update demoApp (Msg.subChanged ⟨zeroSubscription, false, Option.none⟩)).1.state
        = AppState.showingResult ∧
    changeSubscription demoAppOther.selectedID demoSub true true =
      (⟨demoSub, true, Option.none⟩, 1) :=
  ⟨((changeSubscription_selection_spec demoApp demoSub rfl rfl).2.1 rfl).2.1,
   ((changeSubscription_selection_spec demoAppOther demoSub rfl rfl).2.2
      (by decide)).2.1⟩

/-! ## Claim C6: the SelectedSubscriptionId invariant -/

/-- C6: evaluation of the code at the failing input.  With the active
subscription "sub-1" selected, confirming it takes the early no-change
return, whose message leaves the `Subscription` field at its zero
value; `handleSubscriptionChanged` then unconditionally assigns
`selectedID = msg.Subscription.ID`, wiping the active id to the empty
string after the first successful load — the transition the claim
singles out as never emptying it. -/
theorem selectedID_cleared_on_unchanged_bug :
    demoApp.selectedID = "sub-1" ∧
    handleKeyMsg demoApp Key.enter = (demoApp, Cmd.changeSubscription demoSub) ∧
    changeSubscription demoApp.selectedID demoSub true true =
      (⟨zeroSubscription, false, Option.none⟩, 0) ∧
    (update demoApp (Msg.subChanged ⟨zeroSubscription, false, Option.none⟩)).1.selectedID
        = "" ∧
    (update demoApp (Msg.subChanged ⟨zeroSubscription, false, Option.none⟩)).1.state
        = AppState.showingResult := by
  refine ⟨rfl, by decide, by decide, rfl, rfl⟩

/-! ## Claim C7: USE_SAMPLE_DATA -/

/-- C7 counterexample: with `USE_SAMPLE_DATA=true` but the external
tool absent from `PATH`, the list operation fails with the
tool-not-found error (and performs no invocation) rather than
succeeding on the bundled fixture, refuting the claim's "succeeds
without the external tool being present on PATH". -/
theorem loadSubscriptions_sample_requires_az_cex :
    loadSubscriptions sampleEnvNoAz =
      (⟨[], some errAzureCLINotFound⟩, 0) ∧
    (loadSubscriptions sampleEnvNoAz).1.error ≠ Option.none := by
  refine ⟨by decide, by decide⟩

/-- C7 (amended): with `USE_SAMPLE_DATA=true` the fetch step returns
the bundled fixture payload with zero external invocations, and the
whole list operation parses the fixture with zero invocations —
provided the external tool is on `PATH`; when the tool is absent the
operation fails fast with `ErrAzureCLINotFound` even with the variable
set. -/
theorem loadSubscriptions_sampleData_spec :
    (∀ env : Env, env.useSampleData = true →
      fetchSubscriptionData env = (Except.ok env.sampleData, 0)) ∧
    (∀ env : Env, env.useSampleData = true → env.azOnPath = true →
      (loadSubscriptions env).2 = 0 ∧
      ∀ subs, parseSubscriptions env.sampleData = Except.ok subs →
        (loadSubscriptions env).1 = ⟨subs, Option.none⟩) ∧
    (∀ env : Env, env.azOnPath = false →
      loadSubscriptions env = (⟨[], some errAzureCLINotFound⟩, 0)) := by
  refine ⟨?_, ?_, ?_⟩
  · intro env h
    simp [fetchSubscriptionData, h]
  · intro env h1 h2
    constructor
    · simp only [loadSubscriptions, h2, Bool.not_true, Bool.false_eq_true,
        if_false, fetchSubscriptionData, h1, if_true]
      cases hp : parseSubscriptions env.sampleData <;> rfl
    · intro subs hp
      simp only [loadSubscriptions, h2, Bool.not_true, Bool.false_eq_true,
        if_false, fetchSubscriptionData, h1, if_true, hp]
  · intro env h
    simp [loadSubscriptions, h]

/-- C7 witness: the sample-data facts at concrete environments with
and without the tool on `PATH`. -/
theorem loadSubscriptions_sampleData_spec_witness :
    fetchSubscriptionData sampleEnvOk = (Except.ok sampleEnvOk.sampleData, 0) ∧
    (loadSubscriptions sampleEnvOk).2 = 0 ∧
    (loadSubscriptions sampleEnvOk).1 = ⟨[], Option.none⟩ ∧
    loadSubscriptions sampleEnvNoAz = (⟨[], some errAzureCLINotFound⟩, 0) :=
  ⟨loadSubscriptions_sampleData_spec.1 sampleEnvOk rfl,
   (loadSubscriptions_sampleData_spec.2.1 sampleEnvOk rfl rfl).1,
   (loadSubscriptions_sampleData_spec.2.1 sampleEnvOk rfl rfl).2 [] rfl,
   loadSubscriptions_sampleData_spec.2.2 sampleEnvNoAz rfl⟩

/-! ## Claim C8: explicit retry / back in the Error state -/

/-- C8 counterexample: with the retry budget exhausted
(`retryCount = maxRetries = 3`, so no attempts remain) the retry key is
still accepted in the Error state and the recorded load operation is
re-attempted immediately — refuting the claim's "only if attempts
remain (attemptCount < maxAttempts)". -/
theorem handleRetry_ignores_attempt_cap_cex :
    errApp.state = AppState.error ∧
    ¬ errApp.retryCount < errApp.maxRetries ∧
    handleKeyMsg errApp Key.r = (errApp, Cmd.emitRetryMsg) ∧
    update errApp Msg.retryMsg =
      ({ errApp with state := AppState.loading }, Cmd.loadSubscriptions) := by
  refine ⟨rfl, by decide, by decide, by decide⟩

/-- C8 (amended): in the Error state the retry key re-attempts the
recorded lastOperation directly — the command is the operation itself
and not a scheduled tick, i.e. the backoff delay is bypassed —
regardless of how many attempts remain (the attempt cap only gates the
automatic retries); and the back key transitions to
SelectingSubscription clearing the stored error and resetting the
attempt count to 0. -/
theorem errorState_retry_back_spec :
    (∀ app : App, app.state = AppState.error →
      handleKeyMsg app Key.r = (app, Cmd.emitRetryMsg)) ∧
    (∀ app : App, app.state = AppState.error →
      handleKeyMsg app Key.esc = (app, Cmd.emitBackMsg)) ∧
    (∀ app : App, app.lastOperation = "load" →
      update app Msg.retryMsg =
        ({ app with state := AppState.loading }, Cmd.loadSubscriptions)) ∧
    (∀ app : App, app.lastOperation = "change" →
      ∀ hidx : app.listIndex < app.subscriptions.length,
      0 < app.subscriptions.length →
      update app Msg.retryMsg =
        (app, Cmd.changeSubscription
          (app.subscriptions.get ⟨app.listIndex, hidx⟩))) ∧
    (∀ app : App, update app Msg.backMsg =
      ({ app with
          state := AppState.selectingSubscription,
          err := Option.none,
          retryCount := 0,
          resultChanged := Option.none }, Cmd.none)) := by
  refine ⟨?_, ?_, ?_, ?_, ?_⟩
  · intro app h
    simp [handleKeyMsg, h]
  · intro app h
    simp [handleKeyMsg, h]
  · intro app h
    simp [update, handleRetry, h]
  · intro app h hidx hlen
    simp only [update, handleRetry, h]
    rw [if_neg (show ("change" : String) = "load" → False by decide),
      dif_pos ⟨hlen, hidx⟩]
    simp
  · intro app
    simp [update, handleBack]

/-- C8 witness: the retry and back behaviour at the concrete
exhausted-budget error states `errApp` and `errAppChange`. -/
theorem errorState_retry_back_spec_witness :
    handleKeyMsg errApp Key.r = (errApp, Cmd.emitRetryMsg) ∧
    handleKeyMsg errApp Key.esc = (errApp, Cmd.emitBackMsg) ∧
    update errApp Msg.retryMsg =
      ({ errApp with state := AppState.loading }, Cmd.loadSubscriptions) ∧
    update errAppChange Msg.retryMsg =
      (errAppChange, Cmd.changeSubscription demoSub) ∧
    update errApp Msg.backMsg =
      ({ errApp with
          state := AppState.selectingSubscription,
          err := Option.none,
          retryCount := 0,
          resultChanged := Option.none }, Cmd.none) :=
  ⟨errorState_retry_back_spec.1 errApp rfl,
   errorState_retry_back_spec.2.1 errApp rfl,
   errorState_retry_back_spec.2.2.1 errApp rfl,
   errorState_retry_back_spec.2.2.2.1 errAppChange rfl (by decide) (by decide),
   errorState_retry_back_spec.2.2.2.2 errApp⟩

/-! ## Claim C9: retry of a change with no usable selection -/

/-- C9: when a retry request arrives with lastOperation "change" but
the saved subscription list is empty or the list cursor is not below
its length, no operation command is issued; the app falls back to
SelectingSubscription, clears the stored error and resets the attempt
count to 0. -/
theorem handleRetry_change_fallback (app : App)
    (hop : app.lastOperation = "change")
    (hbad : ¬ (0 < app.subscriptions.length ∧
      app.listIndex < app.subscriptions.length)) :
    update app Msg.retryMsg =
      ({ app with
          state := AppState.selectingSubscription,
          err := Option.none,
          retryCount := 0 }, Cmd.none) := by
  simp only [update, handleRetry, hop]
  rw [if_neg (show ("change" : String) = "load" → False by decide),
    dif_neg hbad]
  simp [handleRetryFallback, hop]

/-- C9 witness: the fallback at a concrete error state whose saved
subscription list is empty. -/
theorem handleRetry_change_fallback_witness :
    update errAppChangeEmpty Msg.retryMsg =
      ({ errAppChangeEmpty with
          state := AppState.selectingSubscription,
          err := Option.none,
          retryCount := 0 }, Cmd.none) :=
  handleRetry_change_fallback errAppChangeEmpty rfl (by decide)

/-! ## Claim C10: timer timeout quits everywhere -/

/-- C10: the update function maps a timer timeout message to program
termination in every state — the dispatch handles it before any
state-specific logic, so the quit is unconditional and not limited to
the ShowingResult countdown. -/
theorem update_timeout_quits :
    ∀ app : App, update app Msg.timeout = (app, Cmd.quit) :=
  fun _ => rfl

end Asubselect
